import Mathlib

/-
Shallow embedding of the Memo_Drive_App browser application.

Two source variants exist in the repository:
  * src/app.js        – the "drive" variant (Google Drive per-day document,
                        gated by OAuth sign-in),
  * src/unnamed/part_000 – the "relay" variant (GAS webhook posting to a
                        spreadsheet).

Stateful DOM / localStorage behaviour is embedded as explicit state passing:
`AppState` (drive variant) and `RelayState` (relay variant) carry the editor
text, the save button's disabled flag, the `pending_memos` localStorage slot
(`Option (List PendingMemo)`, `none` = key absent), the status bar, the list
of alerts raised, the outbound network calls issued, and the scheduled
`setTimeout` status reversions.  Remote services are environments supplying
the outcome of each call (`Except JsError …`).
-/

/-- One queued note in localStorage under the `pending_memos` key:
`{ text, timestamp }` as written by `saveToLocal` / `saveTextLocally`. -/
structure PendingMemo where
  text : String
  timestamp : String
deriving Repr, DecidableEq

/-- The fields of a JavaScript `Date` that the application reads
(`getFullYear`, `getMonth`+1, `getDate`, and the hour/minute used by
`toLocaleTimeString`). -/
structure DateTime where
  year : Nat
  month : Nat
  day : Nat
  hour : Nat
  minute : Nat
deriving Repr, DecidableEq

/-- JavaScript `String.prototype.trim()`: remove leading and trailing
whitespace characters. -/
def jsTrim (s : String) : String :=
  String.mk (((s.data.dropWhile Char.isWhitespace).reverse.dropWhile Char.isWhitespace).reverse)

/-- JavaScript `String(n).padStart(2, "0")` for a natural number. -/
def pad2 (n : Nat) : String :=
  if n < 10 then "0" ++ toString n else toString n

/-- src/app.js `getFileName`: the destination document name
`YYYY-MM-DD.md` with 2-digit zero-padded month and day. -/
def getFileName (now : DateTime) : String :=
  toString now.year ++ "-" ++ pad2 now.month ++ "-" ++ pad2 now.day ++ ".md"

/-- `new Date().toLocaleTimeString("ja-JP", hour/minute 2-digit)`:
the `HH:MM` string used in the appended entry heading. -/
def localeTime (now : DateTime) : String :=
  pad2 now.hour ++ ":" ++ pad2 now.minute

/-- A file record returned by the Drive list query (fields `id, name`). -/
structure DriveFile where
  id : String
  name : String
deriving Repr, DecidableEq

/-- A JavaScript error value as the code inspects it:
`err.result?.error?.message`, `err.message`, and `JSON.stringify(err)`. -/
structure JsError where
  resultMessage : Option String
  message : Option String
  json : String
deriving Repr, DecidableEq

/-- JavaScript `a || b` where `a` is a possibly-absent string property:
`undefined` and the empty string are falsy. -/
def jsOrStr (a : Option String) (b : String) : String :=
  match a with
  | none => b
  | some s => if s = "" then b else s

/-- src/app.js line 200: `err.result?.error?.message || err.message ||
JSON.stringify(err)`. -/
def errMsgDrive (e : JsError) : String :=
  jsOrStr e.resultMessage (jsOrStr e.message e.json)

/-- src/unnamed/part_000 line 168: `error.message || JSON.stringify(error)`. -/
def errMsgRelay (e : JsError) : String :=
  jsOrStr e.message e.json

/-- Every outbound network call either variant can issue. -/
inductive NetCall where
  | driveList (fileName folderId : String)
  | driveGet (fileId : String)
  | drivePatch (fileId name body : String)
  | drivePost (name folderId body : String)
  | gasPost (text timestamp : String)
deriving Repr, DecidableEq

/-- Environment supplying the outcome of each Drive API call:
the files.list response, the media download per file id, and the
multipart upload outcome per request. -/
structure DriveEnv where
  listResp : Except JsError (List DriveFile)
  fileResp : String → Except JsError String
  uploadResp : NetCall → Except JsError Unit

/-- src/app.js line 246: the new entry appended to the per-day document,
a newline, the `## HH:MM` heading, a newline, the note text, and a
trailing newline. -/
def newEntry (now : DateTime) (content : String) : String :=
  "\n## " ++ localeTime now ++ "\n" ++ content ++ "\n"

/-- src/app.js `saveToDrive`: search for the per-day file, download its
content when found, build the final body `(currentContent + newEntry).trim()`,
then PATCH the existing file or POST a new one.  Returns the overall
outcome together with the network calls issued, in order. -/
def saveToDrive (env : DriveEnv) (folderId : String) (now : DateTime)
    (content : String) : Except JsError Unit × List NetCall :=
  let fileName := getFileName now
  match env.listResp with
  | Except.error e => (Except.error e, [NetCall.driveList fileName folderId])
  | Except.ok files =>
    match files with
    | [] =>
      let finalContent := jsTrim ("" ++ newEntry now content)
      let call := NetCall.drivePost fileName folderId finalContent
      (env.uploadResp call, [NetCall.driveList fileName folderId, call])
    | f :: _ =>
      match env.fileResp f.id with
      | Except.error e =>
        (Except.error e, [NetCall.driveList fileName folderId, NetCall.driveGet f.id])
      | Except.ok currentContent =>
        let finalContent := jsTrim (currentContent ++ newEntry now content)
        let call := NetCall.drivePatch f.id fileName finalContent
        (env.uploadResp call, [NetCall.driveList fileName folderId, NetCall.driveGet f.id, call])

/-- The drive variant's observable page state. -/
structure AppState where
  isOnline : Bool
  isAuthenticated : Bool
  memoText : String
  saveBtnDisabled : Bool
  storage : Option (List PendingMemo)
  statusText : String
  statusDot : String
  alerts : List String
  netCalls : List NetCall
  scheduled : List (Nat × String × String)
deriving Repr, DecidableEq

/-- src/app.js `updateStatus`. -/
def updateStatus (s : AppState) (text dot : String) : AppState :=
  { s with statusText := text, statusDot := dot }

/-- `JSON.parse(localStorage.getItem("pending_memos") || "[]")`:
an absent key reads as the empty list. -/
def getPending (storage : Option (List PendingMemo)) : List PendingMemo :=
  storage.getD []

/-- src/app.js `saveToLocal`: append `{ text, timestamp: now ISO }` to the
stored queue and write the whole list back. -/
def saveToLocal (s : AppState) (text nowIso : String) : AppState :=
  { s with storage := some (getPending s.storage ++ [{ text := text, timestamp := nowIso }]) }

/-- src/app.js `els.saveBtn.onclick`: trim, bail on empty, set a transient
saving status and disable the button; online-and-authenticated saves go to
Drive (success clears the editor, failure falls back to `saveToLocal` plus an
alert); otherwise save locally and clear the editor. -/
def saveBtnOnClick (env : DriveEnv) (folderId : String) (now : DateTime)
    (nowIso : String) (s : AppState) : AppState :=
  let text := jsTrim s.memoText
  if text = "" then s
  else
    let s1 := { updateStatus s "Saving..." "syncing" with saveBtnDisabled := true }
    if s1.isOnline && s1.isAuthenticated then
      match saveToDrive env folderId now text with
      | (Except.ok _, calls) =>
        let s2 := { s1 with netCalls := s1.netCalls ++ calls, memoText := "" }
        let s3 := updateStatus s2 "Saved!" "online"
        { s3 with scheduled := s3.scheduled ++ [(2000, "ONLINE", "online")] }
      | (Except.error e, calls) =>
        let s2 := { s1 with netCalls := s1.netCalls ++ calls }
        let s3 := saveToLocal s2 text nowIso
        let s4 := { s3 with alerts := s3.alerts ++ ["保存に失敗しました: " ++ errMsgDrive e] }
        updateStatus s4 "Saved Locally (Sync later)" "offline"
    else
      let s2 := saveToLocal s1 text nowIso
      let s3 := { s2 with memoText := "" }
      let s4 := updateStatus s3 "Saved Locally" "offline"
      { s4 with scheduled := s4.scheduled ++ [(2000, "OFFLINE", "offline")] }

/-- src/app.js input listener on the editor: the save button is disabled
exactly when the trimmed content is empty. -/
def memoTextInput (s : AppState) : AppState :=
  { s with saveBtnDisabled := (jsTrim s.memoText).length == 0 }

/-- One recognition result: its finality flag and the first alternative's
transcript (`event.results[i][0].transcript`). -/
structure SpeechResult where
  isFinal : Bool
  transcript : String
deriving Repr, DecidableEq

/-- A recognition result batch: `event.resultIndex` and `event.results`. -/
structure SpeechEvent where
  resultIndex : Nat
  results : List SpeechResult
deriving Repr, DecidableEq

/-- src/app.js lines 150-154: concatenate the transcripts of the finalized
results from `event.resultIndex` onward. -/
def finalTranscript (ev : SpeechEvent) : String :=
  (ev.results.drop ev.resultIndex).foldl
    (fun acc r => if r.isFinal then acc ++ r.transcript else acc) ""

/-- src/app.js `recognition.onresult`: when the concatenated final
transcript is non-empty, append it to the editor (newline-separated when the
editor already has content) and enable the save button. -/
def recognitionOnResult (s : AppState) (ev : SpeechEvent) : AppState :=
  let ft := finalTranscript ev
  if ft = "" then s
  else
    let separator := if s.memoText.length > 0 then "\n" else ""
    { s with memoText := s.memoText ++ separator ++ ft, saveBtnDisabled := false }

/-- src/app.js lines 358-361: the combined sync body built by
`pending.forEach`, each item contributing a newline, the
`(Synced from offline)` marker line, a newline, the text, and a newline. -/
def combinedOffline (pending : List PendingMemo) : String :=
  pending.foldl (fun acc item => acc ++ "\n(Synced from offline)\n" ++ item.text ++ "\n") ""

/-- src/app.js `syncPendingData`: no-op unless authenticated, online and the
queue is non-empty; otherwise submit the combined body in one `saveToDrive`
call, removing the `pending_memos` key only on success. -/
def syncPendingData (env : DriveEnv) (folderId : String) (now : DateTime)
    (s : AppState) : AppState :=
  if !s.isAuthenticated || !s.isOnline then s
  else
    let pending := getPending s.storage
    if pending.length = 0 then s
    else
      let s1 := updateStatus s "Syncing..." "syncing"
      match saveToDrive env folderId now (combinedOffline pending) with
      | (Except.ok _, calls) =>
        let s2 := { s1 with netCalls := s1.netCalls ++ calls, storage := none }
        let s3 := updateStatus s2 "Synced!" "online"
        { s3 with scheduled := s3.scheduled ++ [(2000, "ONLINE", "online")] }
      | (Except.error _, calls) =>
        let s2 := { s1 with netCalls := s1.netCalls ++ calls }
        updateStatus s2 "Sync Failed" "offline"

/-- The relay variant's observable page state (src/unnamed/part_000); it has
no authentication flag. -/
structure RelayState where
  isOnline : Bool
  memoText : String
  saveBtnDisabled : Bool
  storage : Option (List PendingMemo)
  statusText : String
  statusDot : String
  alerts : List String
  netCalls : List NetCall
  scheduled : List (Nat × String × String)
deriving Repr, DecidableEq

/-- src/unnamed/part_000 `updateAppStatusMessage`. -/
def updateAppStatusMessage (s : RelayState) (text dot : String) : RelayState :=
  { s with statusText := text, statusDot := dot }

/-- src/unnamed/part_000 `saveTextLocally`: append `{ text, timestamp }`
to the stored queue and write the whole list back. -/
def saveTextLocally (s : RelayState) (text nowIso : String) : RelayState :=
  { s with storage := some (getPending s.storage ++ [{ text := text, timestamp := nowIso }]) }

/-- Environment supplying the outcome of each GAS webhook POST, by body
text (network failure makes `fetch` throw; otherwise the opaque call
counts as success). -/
structure RelayEnv where
  postResp : String → Except JsError Unit

/-- src/unnamed/part_000 `sendMemoToSheet`: one POST to the GAS URL with
`{ text, timestamp }`; returns the outcome and the call issued. -/
def sendMemoToSheet (env : RelayEnv) (ts : String) (content : String) :
    Except JsError Unit × List NetCall :=
  (env.postResp content, [NetCall.gasPost content ts])

/-- src/unnamed/part_000 `handleSaveFailure`: queue the text locally first,
then alert with the failure message, then show the local-retention status. -/
def handleSaveFailure (s : RelayState) (text nowIso : String) (e : JsError) : RelayState :=
  let s1 := saveTextLocally s text nowIso
  let s2 := { s1 with
    alerts := s1.alerts ++ ["保存に失敗しました（端末内に仮保存しました）: " ++ errMsgRelay e] }
  updateAppStatusMessage s2 "端末内に仮保存済（後で同期します）" "offline"

/-- src/unnamed/part_000 `domElements.saveBtn.onclick`: trim, bail on empty,
set a transient saving status and disable the button; online saves go to the
GAS relay (success clears the editor, failure goes through
`handleSaveFailure`); offline saves go to local storage and clear the
editor. -/
def relaySaveBtnOnClick (env : RelayEnv) (ts nowIso : String) (s : RelayState) : RelayState :=
  let textToSave := jsTrim s.memoText
  if textToSave = "" then s
  else
    let s1 := { updateAppStatusMessage s "保存中..." "syncing" with saveBtnDisabled := true }
    if s1.isOnline then
      match sendMemoToSheet env ts textToSave with
      | (Except.ok _, calls) =>
        let s2 := { s1 with netCalls := s1.netCalls ++ calls, memoText := "" }
        let s3 := updateAppStatusMessage s2 "保存しました！" "online"
        { s3 with scheduled := s3.scheduled ++ [(2000, "ONLINE", "online")] }
      | (Except.error e, calls) =>
        handleSaveFailure { s1 with netCalls := s1.netCalls ++ calls } textToSave nowIso e
    else
      let s2 := saveTextLocally s1 textToSave nowIso
      let s3 := { s2 with memoText := "" }
      let s4 := updateAppStatusMessage s3 "端末内に仮保存しました" "offline"
      { s4 with scheduled := s4.scheduled ++ [(2000, "OFFLINE", "offline")] }

/-- src/unnamed/part_000 input listener on the editor: the save button is
disabled exactly when the trimmed content is empty. -/
def relayMemoTextInput (s : RelayState) : RelayState :=
  { s with saveBtnDisabled := (jsTrim s.memoText).length == 0 }

/-- src/unnamed/part_000 `voiceRecognizer.onresult`: same logic as the drive
variant's handler, acting on the relay page state. -/
def relayOnResult (s : RelayState) (ev : SpeechEvent) : RelayState :=
  let ft := finalTranscript ev
  if ft = "" then s
  else
    let separator := if s.memoText.length > 0 then "\n" else ""
    { s with memoText := s.memoText ++ separator ++ ft, saveBtnDisabled := false }

/-- src/unnamed/part_000 lines 273-275: replay each queued memo in order,
each wrapped with the offline marker; a fault aborts the remaining replay.
Returns the overall outcome and the POSTs issued, in order. -/
def syncLoop (env : RelayEnv) (ts : String) :
    List PendingMemo → Except JsError Unit × List NetCall
  | [] => (Except.ok (), [])
  | memo :: rest =>
    match sendMemoToSheet env ts ("(オフライン時の仮保存) " ++ memo.text) with
    | (Except.ok _, calls) =>
      let res := syncLoop env ts rest
      (res.1, calls ++ res.2)
    | (Except.error e, calls) => (Except.error e, calls)

/-- src/unnamed/part_000 `syncOfflineMemosToSheet`: no-op unless online with
a non-empty queue; otherwise replay the queue one memo at a time, removing
the `pending_memos` key only when the whole loop completed without fault. -/
def syncOfflineMemosToSheet (env : RelayEnv) (ts : String) (s : RelayState) : RelayState :=
  if !s.isOnline then s
  else
    let pendingMemos := getPending s.storage
    if pendingMemos.length = 0 then s
    else
      let s1 := updateAppStatusMessage s "同期中..." "syncing"
      match syncLoop env ts pendingMemos with
      | (Except.ok _, calls) =>
        let s2 := { s1 with netCalls := s1.netCalls ++ calls, storage := none }
        let s3 := updateAppStatusMessage s2 "同期完了！" "online"
        { s3 with scheduled := s3.scheduled ++ [(2000, "ONLINE", "online")] }
      | (Except.error _, calls) =>
        let s2 := { s1 with netCalls := s1.netCalls ++ calls }
        updateAppStatusMessage s2 "同期失敗（後で再試行します）" "offline"

/-- Concatenation of a list of strings, used to state the specification-side
shape of the code's string-building folds. -/
def joinStrings : List String → String
  | [] => ""
  | x :: xs => x ++ joinStrings xs

/-- Unfolding lemma: the combined sync body is the concatenation of the
wrapped queued texts, in enqueue order. -/
theorem combinedOffline_foldl (l : List PendingMemo) (acc : String) :
    l.foldl (fun acc item => acc ++ "\n(Synced from offline)\n" ++ item.text ++ "\n") acc
      = acc ++ joinStrings (l.map fun m => "\n(Synced from offline)\n" ++ m.text ++ "\n") := by
  induction l generalizing acc with
  | nil => simp [joinStrings]
  | cons x xs ih =>
    rw [List.foldl_cons, ih]
    simp [joinStrings, String.append_assoc]

/-- Unfolding lemma: the dictation fold keeps exactly the finalized
transcripts, concatenated in order. -/
theorem finalTranscript_foldl (l : List SpeechResult) (acc : String) :
    l.foldl (fun a r => if r.isFinal then a ++ r.transcript else a) acc
      = acc ++ joinStrings ((l.filter fun r => r.isFinal).map fun r => r.transcript) := by
  induction l generalizing acc with
  | nil => simp [joinStrings]
  | cons x xs ih =>
    by_cases hx : x.isFinal <;>
      simp [List.foldl, hx, ih, joinStrings, String.append_assoc]

/-- When no result in the batch window is finalized, the fold returns its
accumulator unchanged. -/
theorem finalTranscript_foldl_no_final (l : List SpeechResult) (acc : String)
    (h : ∀ r ∈ l, r.isFinal = false) :
    l.foldl (fun a r => if r.isFinal then a ++ r.transcript else a) acc = acc := by
  induction l generalizing acc with
  | nil => rfl
  | cons x xs ih =>
    have hx := h x (List.mem_cons_self x xs)
    rw [List.foldl_cons]
    simp only [hx, Bool.false_eq_true, if_false]
    exact ih acc (fun r hr => h r (List.mem_cons_of_mem x hr))

/-- If every webhook POST succeeds, the replay loop completes without
fault. -/
theorem syncLoop_ok (env : RelayEnv) (ts : String) (l : List PendingMemo)
    (h : ∀ t, env.postResp t = Except.ok ()) :
    (syncLoop env ts l).1 = Except.ok () := by
  induction l with
  | nil => rfl
  | cons x xs ih => simp [syncLoop, sendMemoToSheet, h, ih]

/-- A non-empty string has a `length == 0` test that is `false`. -/
theorem length_beq_zero_of_ne (s : String) (h : s ≠ "") : (s.length == 0) = false := by
  cases s with
  | mk data =>
    cases data with
    | nil => exact absurd rfl h
    | cons c cs => simp [String.length]

/-- Appending to the empty string is the identity. -/
theorem str_empty_append (s : String) : "" ++ s = s := by
  cases s with
  | mk data => exact congrArg String.mk (List.nil_append data)

/-- The new drive entry, read as its specification shape: a newline, the
heading line with the current time, a newline, the note text, and a
trailing newline. -/
theorem newEntry_shape (now : DateTime) (content : String) :
    newEntry now content
      = "\n" ++ ("## " ++ localeTime now) ++ "\n" ++ content ++ "\n" := by
  show "\n## " ++ localeTime now ++ "\n" ++ content ++ "\n" = _
  rw [← String.append_assoc "\n" "## " (localeTime now)]
  rfl

/-- A concrete transport failure, with a `message` but no `result` body. -/
def errBoom : JsError := { resultMessage := none, message := some "network down", json := "err" }

/-- A concrete calendar instant, 2026-02-20 09:05. -/
def dt1 : DateTime := { year := 2026, month := 2, day := 20, hour := 9, minute := 5 }

/-- Drive environment whose very first call (the list query) faults. -/
def envListFail : DriveEnv :=
  { listResp := Except.error errBoom
    fileResp := fun _ => Except.ok ""
    uploadResp := fun _ => Except.ok () }

/-- Drive environment where no per-day file exists yet and every call
succeeds. -/
def envAllOk : DriveEnv :=
  { listResp := Except.ok []
    fileResp := fun _ => Except.ok ""
    uploadResp := fun _ => Except.ok () }

/-- Drive environment where the per-day file already exists with body
`old`, and every call succeeds. -/
def envFound : DriveEnv :=
  { listResp := Except.ok [{ id := "id1", name := "2026-02-20.md" }]
    fileResp := fun _ => Except.ok "old"
    uploadResp := fun _ => Except.ok () }

/-- Relay environment where every POST succeeds. -/
def renvOk : RelayEnv := { postResp := fun _ => Except.ok () }

/-- Relay environment where every POST faults. -/
def renvFail : RelayEnv := { postResp := fun _ => Except.error errBoom }

/-- Online, authenticated drive page state with text in the editor and an
absent queue key. -/
def stOnlineAuthed : AppState :=
  { isOnline := true, isAuthenticated := true, memoText := "hello"
    saveBtnDisabled := false, storage := none, statusText := "ONLINE"
    statusDot := "online", alerts := [], netCalls := [], scheduled := [] }

/-- Online relay page state with text in the editor and an absent queue
key. -/
def rsOnline : RelayState :=
  { isOnline := true, memoText := "hello", saveBtnDisabled := false
    storage := none, statusText := "ONLINE", statusDot := "online"
    alerts := [], netCalls := [], scheduled := [] }

/-- C1: for every online save whose remote persistence call fails, the
trimmed text is enqueued into the `pending_memos` queue, the editor content
is left uncleared, and a blocking alert containing the failure's message
text is raised — in both the drive variant (`saveBtnOnClick`) and the relay
variant (`relaySaveBtnOnClick` via `handleSaveFailure`).  No user input is
lost on a failed remote save. -/
theorem failed_online_save_queues_and_preserves_editor
    (env : DriveEnv) (folderId : String) (now : DateTime) (nowIso : String)
    (s : AppState) (e : JsError) (calls : List NetCall)
    (renv : RelayEnv) (ts rIso : String) (rs : RelayState) (re : JsError)
    (hOnline : s.isOnline = true) (hAuth : s.isAuthenticated = true)
    (hText : jsTrim s.memoText ≠ "")
    (hFail : saveToDrive env folderId now (jsTrim s.memoText) = (Except.error e, calls))
    (hrOnline : rs.isOnline = true) (hrText : jsTrim rs.memoText ≠ "")
    (hrFail : renv.postResp (jsTrim rs.memoText) = Except.error re) :
    (saveBtnOnClick env folderId now nowIso s).storage
        = some (getPending s.storage ++ [{ text := jsTrim s.memoText, timestamp := nowIso }])
    ∧ (saveBtnOnClick env folderId now nowIso s).memoText = s.memoText
    ∧ (saveBtnOnClick env folderId now nowIso s).alerts
        = s.alerts ++ ["保存に失敗しました: " ++ errMsgDrive e]
    ∧ (relaySaveBtnOnClick renv ts rIso rs).storage
        = some (getPending rs.storage ++ [{ text := jsTrim rs.memoText, timestamp := rIso }])
    ∧ (relaySaveBtnOnClick renv ts rIso rs).memoText = rs.memoText
    ∧ (relaySaveBtnOnClick renv ts rIso rs).alerts
        = rs.alerts ++ ["保存に失敗しました（端末内に仮保存しました）: " ++ errMsgRelay re] := by
  refine ⟨?_, ?_, ?_, ?_, ?_, ?_⟩ <;>
    simp [saveBtnOnClick, relaySaveBtnOnClick, handleSaveFailure, sendMemoToSheet,
      updateStatus, updateAppStatusMessage, saveToLocal, saveTextLocally,
      hText, hOnline, hAuth, hFail, hrOnline, hrText, hrFail]

/-- C1 witness: the list query faults for the drive save and the POST
faults for the relay save; the concrete states keep their editor text and
gain exactly one queued memo plus the alert. -/
theorem failed_online_save_queues_and_preserves_editor_witness :
    (saveBtnOnClick envListFail "fid" dt1 "2026-02-20T00:00:00.000Z" stOnlineAuthed).storage
        = some (getPending stOnlineAuthed.storage
            ++ [{ text := jsTrim stOnlineAuthed.memoText, timestamp := "2026-02-20T00:00:00.000Z" }])
    ∧ (saveBtnOnClick envListFail "fid" dt1 "2026-02-20T00:00:00.000Z" stOnlineAuthed).memoText
        = stOnlineAuthed.memoText
    ∧ (saveBtnOnClick envListFail "fid" dt1 "2026-02-20T00:00:00.000Z" stOnlineAuthed).alerts
        = stOnlineAuthed.alerts ++ ["保存に失敗しました: " ++ errMsgDrive errBoom]
    ∧ (relaySaveBtnOnClick renvFail "2026/02/20 09:05" "2026-02-20T00:00:00.000Z" rsOnline).storage
        = some (getPending rsOnline.storage
            ++ [{ text := jsTrim rsOnline.memoText, timestamp := "2026-02-20T00:00:00.000Z" }])
    ∧ (relaySaveBtnOnClick renvFail "2026/02/20 09:05" "2026-02-20T00:00:00.000Z" rsOnline).memoText
        = rsOnline.memoText
    ∧ (relaySaveBtnOnClick renvFail "2026/02/20 09:05" "2026-02-20T00:00:00.000Z" rsOnline).alerts
        = rsOnline.alerts ++ ["保存に失敗しました（端末内に仮保存しました）: " ++ errMsgRelay errBoom] :=
  failed_online_save_queues_and_preserves_editor envListFail "fid" dt1
    "2026-02-20T00:00:00.000Z" stOnlineAuthed errBoom [NetCall.driveList "2026-02-20.md" "fid"]
    renvFail "2026/02/20 09:05" "2026-02-20T00:00:00.000Z" rsOnline errBoom
    rfl rfl (by decide) rfl rfl (by decide) rfl

/-- A concrete queued memo. -/
def memo1 : PendingMemo := { text := "hello", timestamp := "2026-02-20T00:00:00.000Z" }

/-- Online, authenticated drive page state with one queued memo. -/
def stQueued : AppState :=
  { isOnline := true, isAuthenticated := true, memoText := ""
    saveBtnDisabled := true, storage := some [memo1], statusText := "ONLINE"
    statusDot := "online", alerts := [], netCalls := [], scheduled := [] }

/-- Online relay page state with one queued memo. -/
def rsQueued : RelayState :=
  { isOnline := true, memoText := "", saveBtnDisabled := true
    storage := some [memo1], statusText := "ONLINE", statusDot := "online"
    alerts := [], netCalls := [], scheduled := [] }

/-- C2: sync is all-or-nothing on the queue.  Over a non-empty queue on a
viable path, a fully successful run removes the `pending_memos` key
entirely (storage becomes `none`, not `some []`), while any fault leaves
the stored queue exactly as it was — in both the drive variant
(`syncPendingData`) and the relay variant (`syncOfflineMemosToSheet`,
whose per-item loop aborts at the first fault before the clear step). -/
theorem sync_all_or_nothing
    (env : DriveEnv) (folderId : String) (now : DateTime) (s : AppState)
    (renv : RelayEnv) (ts : String) (rs : RelayState)
    (hAuth : s.isAuthenticated = true) (hOnline : s.isOnline = true)
    (hNe : getPending s.storage ≠ [])
    (hrOnline : rs.isOnline = true) (hrNe : getPending rs.storage ≠ []) :
    ((saveToDrive env folderId now (combinedOffline (getPending s.storage))).1 = Except.ok ()
        → (syncPendingData env folderId now s).storage = none)
    ∧ (∀ e, (saveToDrive env folderId now (combinedOffline (getPending s.storage))).1 = Except.error e
        → (syncPendingData env folderId now s).storage = s.storage)
    ∧ ((∀ t, renv.postResp t = Except.ok ())
        → (syncOfflineMemosToSheet renv ts rs).storage = none)
    ∧ (∀ e, (syncLoop renv ts (getPending rs.storage)).1 = Except.error e
        → (syncOfflineMemosToSheet renv ts rs).storage = rs.storage) := by
  have hlen : ¬ (getPending s.storage).length = 0 := by
    simpa [List.length_eq_zero] using hNe
  have hrlen : ¬ (getPending rs.storage).length = 0 := by
    simpa [List.length_eq_zero] using hrNe
  refine ⟨?_, ?_, ?_, ?_⟩
  · intro h
    rcases hsd : saveToDrive env folderId now (combinedOffline (getPending s.storage)) with ⟨r, calls⟩
    rw [hsd] at h
    subst h
    simp [syncPendingData, hAuth, hOnline, hlen, hsd, updateStatus]
  · intro e h
    rcases hsd : saveToDrive env folderId now (combinedOffline (getPending s.storage)) with ⟨r, calls⟩
    rw [hsd] at h
    subst h
    simp [syncPendingData, hAuth, hOnline, hlen, hsd, updateStatus]
  · intro hAll
    have hloop := syncLoop_ok renv ts (getPending rs.storage) hAll
    rcases hsl : syncLoop renv ts (getPending rs.storage) with ⟨r, calls⟩
    rw [hsl] at hloop
    subst hloop
    simp [syncOfflineMemosToSheet, hrOnline, hrlen, hsl, updateAppStatusMessage]
  · intro e h
    rcases hsl : syncLoop renv ts (getPending rs.storage) with ⟨r, calls⟩
    rw [hsl] at h
    subst h
    simp [syncOfflineMemosToSheet, hrOnline, hrlen, hsl, updateAppStatusMessage]

/-- C2 witness: with one queued memo, a fully successful drive sync and
relay sync remove the key; a faulting drive sync and relay sync leave the
queue as it was. -/
theorem sync_all_or_nothing_witness :
    (syncPendingData envAllOk "fid" dt1 stQueued).storage = none
    ∧ (syncOfflineMemosToSheet renvOk "2026/02/20 09:05" rsQueued).storage = none
    ∧ (syncPendingData envListFail "fid" dt1 stQueued).storage = stQueued.storage
    ∧ (syncOfflineMemosToSheet renvFail "2026/02/20 09:05" rsQueued).storage = rsQueued.storage :=
  ⟨(sync_all_or_nothing envAllOk "fid" dt1 stQueued renvOk "2026/02/20 09:05" rsQueued
      rfl rfl (by decide) rfl (by decide)).1 rfl,
   (sync_all_or_nothing envAllOk "fid" dt1 stQueued renvOk "2026/02/20 09:05" rsQueued
      rfl rfl (by decide) rfl (by decide)).2.2.1 (fun _ => rfl),
   (sync_all_or_nothing envListFail "fid" dt1 stQueued renvFail "2026/02/20 09:05" rsQueued
      rfl rfl (by decide) rfl (by decide)).2.1 errBoom rfl,
   (sync_all_or_nothing envListFail "fid" dt1 stQueued renvFail "2026/02/20 09:05" rsQueued
      rfl rfl (by decide) rfl (by decide)).2.2.2 errBoom rfl⟩

/-- C3: every drive-variant save appends an entry consisting of a newline,
a heading line carrying the current 2-digit `HH:MM` time, a newline, the
note text, and a trailing newline; the uploaded document body is the
existing content (the empty string when the document did not exist)
concatenated with this entry and then trimmed of surrounding whitespace. -/
theorem drive_save_entry_and_body
    (env : DriveEnv) (folderId : String) (now : DateTime) (content : String) :
    (env.listResp = Except.ok [] →
      (saveToDrive env folderId now content).2
        = [NetCall.driveList (getFileName now) folderId,
           NetCall.drivePost (getFileName now) folderId
             (jsTrim ("" ++ ("\n" ++ ("## " ++ (pad2 now.hour ++ ":" ++ pad2 now.minute))
                 ++ "\n" ++ content ++ "\n")))])
    ∧ (∀ f fs cur, env.listResp = Except.ok (f :: fs) → env.fileResp f.id = Except.ok cur →
      (saveToDrive env folderId now content).2
        = [NetCall.driveList (getFileName now) folderId, NetCall.driveGet f.id,
           NetCall.drivePatch f.id (getFileName now)
             (jsTrim (cur ++ ("\n" ++ ("## " ++ (pad2 now.hour ++ ":" ++ pad2 now.minute))
                 ++ "\n" ++ content ++ "\n")))]) := by
  have hsh : "\n" ++ ("## " ++ (pad2 now.hour ++ ":" ++ pad2 now.minute))
      ++ "\n" ++ content ++ "\n" = newEntry now content := by
    rw [newEntry_shape]
    simp [localeTime]
  constructor
  · intro h
    simp [saveToDrive, h, hsh]
  · intro f fs cur h hget
    simp [saveToDrive, h, hget, hsh]

/-- C3 witness: with no pre-existing document a create carries just the
trimmed entry; with an existing document of body `old` an update carries
the concatenation, trimmed. -/
theorem drive_save_entry_and_body_witness :
    ((saveToDrive envAllOk "fid" dt1 "note").2
        = [NetCall.driveList (getFileName dt1) "fid",
           NetCall.drivePost (getFileName dt1) "fid"
             (jsTrim ("" ++ ("\n" ++ ("## " ++ (pad2 dt1.hour ++ ":" ++ pad2 dt1.minute))
                 ++ "\n" ++ "note" ++ "\n")))])
    ∧ ((saveToDrive envFound "fid" dt1 "note").2
        = [NetCall.driveList (getFileName dt1) "fid", NetCall.driveGet "id1",
           NetCall.drivePatch "id1" (getFileName dt1)
             (jsTrim ("old" ++ ("\n" ++ ("## " ++ (pad2 dt1.hour ++ ":" ++ pad2 dt1.minute))
                 ++ "\n" ++ "note" ++ "\n")))]) :=
  ⟨(drive_save_entry_and_body envAllOk "fid" dt1 "note").1 rfl,
   (drive_save_entry_and_body envFound "fid" dt1 "note").2
     { id := "id1", name := "2026-02-20.md" } [] "old" rfl rfl⟩

/-- Drive page state that is offline (and unauthenticated). -/
def stOffline : AppState :=
  { isOnline := false, isAuthenticated := false, memoText := "買い物リスト"
    saveBtnDisabled := false, storage := none, statusText := "OFFLINE"
    statusDot := "offline", alerts := [], netCalls := [], scheduled := [] }

/-- Relay page state that is online with an empty (absent) queue. -/
def rsEmptyQueue : RelayState :=
  { isOnline := true, memoText := "", saveBtnDisabled := true
    storage := none, statusText := "ONLINE", statusDot := "online"
    alerts := [], netCalls := [], scheduled := [] }

/-- C4: a sync invocation is a complete no-op — the whole page state,
including status, network-call log and stored queue, is unchanged — when
the persistence path is not viable (not authenticated or offline in the
drive variant; offline in the relay variant) or the stored queue is
empty. -/
theorem sync_noop_when_not_viable_or_empty
    (env : DriveEnv) (folderId : String) (now : DateTime) (s : AppState)
    (renv : RelayEnv) (ts : String) (rs : RelayState)
    (hs : s.isAuthenticated = false ∨ s.isOnline = false ∨ getPending s.storage = [])
    (hr : rs.isOnline = false ∨ getPending rs.storage = []) :
    syncPendingData env folderId now s = s
    ∧ syncOfflineMemosToSheet renv ts rs = rs := by
  constructor
  · rcases hs with h | h | h
    · simp [syncPendingData, h]
    · simp [syncPendingData, h]
    · simp [syncPendingData, h]
  · rcases hr with h | h
    · simp [syncOfflineMemosToSheet, h]
    · simp [syncOfflineMemosToSheet, h]

/-- C4 witness: an offline drive state and an online relay state with an
absent queue key are both left untouched by their sync operations. -/
theorem sync_noop_when_not_viable_or_empty_witness :
    syncPendingData envAllOk "fid" dt1 stOffline = stOffline
    ∧ syncOfflineMemosToSheet renvOk "2026/02/20 09:05" rsEmptyQueue = rsEmptyQueue :=
  sync_noop_when_not_viable_or_empty envAllOk "fid" dt1 stOffline
    renvOk "2026/02/20 09:05" rsEmptyQueue (Or.inl rfl) (Or.inr rfl)

/-- Offline relay page state with text in the editor. -/
def rsOffline : RelayState :=
  { isOnline := false, memoText := "買い物リスト", saveBtnDisabled := false
    storage := none, statusText := "OFFLINE", statusDot := "offline"
    alerts := [], netCalls := [], scheduled := [] }

/-- C5: a save activated with non-empty trimmed text while the remote path
is not viable (offline, or online-but-unauthenticated in the drive
variant) appends exactly one PendingMemo carrying the trimmed text and the
current ISO-8601 timestamp to the stored queue, clears the editor
immediately, and issues no outbound network call. -/
theorem offline_save_enqueues_clears_and_stays_local
    (env : DriveEnv) (folderId : String) (now : DateTime) (nowIso : String)
    (s : AppState) (renv : RelayEnv) (ts rIso : String) (rs : RelayState)
    (hText : jsTrim s.memoText ≠ "")
    (hNotViable : s.isOnline = false ∨ s.isAuthenticated = false)
    (hrText : jsTrim rs.memoText ≠ "") (hrOff : rs.isOnline = false) :
    (saveBtnOnClick env folderId now nowIso s).storage
        = some (getPending s.storage ++ [{ text := jsTrim s.memoText, timestamp := nowIso }])
    ∧ (saveBtnOnClick env folderId now nowIso s).memoText = ""
    ∧ (saveBtnOnClick env folderId now nowIso s).netCalls = s.netCalls
    ∧ (relaySaveBtnOnClick renv ts rIso rs).storage
        = some (getPending rs.storage ++ [{ text := jsTrim rs.memoText, timestamp := rIso }])
    ∧ (relaySaveBtnOnClick renv ts rIso rs).memoText = ""
    ∧ (relaySaveBtnOnClick renv ts rIso rs).netCalls = rs.netCalls := by
  refine ⟨?_, ?_, ?_, ?_, ?_, ?_⟩ <;>
    first
    | (rcases hNotViable with h | h <;>
        simp [saveBtnOnClick, updateStatus, saveToLocal, hText, h])
    | simp [relaySaveBtnOnClick, updateAppStatusMessage, saveTextLocally, hrText, hrOff]

/-- C5 witness: saving the spec's example text 買い物リスト while offline,
in both variants, queues exactly one memo, clears the editor, and issues no
network call. -/
theorem offline_save_enqueues_clears_and_stays_local_witness :
    (saveBtnOnClick envAllOk "fid" dt1 "2026-02-20T00:00:00.000Z" stOffline).storage
        = some (getPending stOffline.storage
            ++ [{ text := jsTrim stOffline.memoText, timestamp := "2026-02-20T00:00:00.000Z" }])
    ∧ (saveBtnOnClick envAllOk "fid" dt1 "2026-02-20T00:00:00.000Z" stOffline).memoText = ""
    ∧ (saveBtnOnClick envAllOk "fid" dt1 "2026-02-20T00:00:00.000Z" stOffline).netCalls
        = stOffline.netCalls
    ∧ (relaySaveBtnOnClick renvOk "2026/02/20 09:05" "2026-02-20T00:00:00.000Z" rsOffline).storage
        = some (getPending rsOffline.storage
            ++ [{ text := jsTrim rsOffline.memoText, timestamp := "2026-02-20T00:00:00.000Z" }])
    ∧ (relaySaveBtnOnClick renvOk "2026/02/20 09:05" "2026-02-20T00:00:00.000Z" rsOffline).memoText = ""
    ∧ (relaySaveBtnOnClick renvOk "2026/02/20 09:05" "2026-02-20T00:00:00.000Z" rsOffline).netCalls
        = rsOffline.netCalls :=
  offline_save_enqueues_clears_and_stays_local envAllOk "fid" dt1
    "2026-02-20T00:00:00.000Z" stOffline renvOk "2026/02/20 09:05"
    "2026-02-20T00:00:00.000Z" rsOffline (by decide) (Or.inl rfl) (by decide) rfl

/-- C6: the drive-variant destination name is `YYYY-MM-DD.md` with 2-digit
zero-padded month and day (concretely `2026-02-20.md` on 2026-02-20 at any
time of day); two saves on the same calendar date compute the same name;
and a save that finds an existing non-trashed document issues a PATCH to
that document's id and never a create. -/
theorem drive_filename_per_day_and_update
    (env : DriveEnv) (folderId : String) (now now2 : DateTime) (content : String)
    (f : DriveFile) (fs : List DriveFile) (cur : String)
    (hy : now.year = now2.year) (hm : now.month = now2.month) (hd : now.day = now2.day)
    (hList : env.listResp = Except.ok (f :: fs))
    (hGet : env.fileResp f.id = Except.ok cur) :
    (∀ h1 m1, getFileName { year := 2026, month := 2, day := 20, hour := h1, minute := m1 }
        = "2026-02-20.md")
    ∧ getFileName now = getFileName now2
    ∧ (∃ body, NetCall.drivePatch f.id (getFileName now) body
        ∈ (saveToDrive env folderId now content).2)
    ∧ (∀ n fo b, NetCall.drivePost n fo b ∉ (saveToDrive env folderId now content).2) := by
  refine ⟨fun h1 m1 => by simp only [getFileName]; decide, ?_, ?_, ?_⟩
  · simp [getFileName, hy, hm, hd]
  · exact ⟨jsTrim (cur ++ newEntry now content), by simp [saveToDrive, hList, hGet]⟩
  · intro n fo b
    simp [saveToDrive, hList, hGet]

/-- C6 witness: on 2026-02-20 the computed name is `2026-02-20.md` at two
different times of day, and a save against an environment holding an
existing per-day file issues a PATCH to its id and no create. -/
theorem drive_filename_per_day_and_update_witness :
    (∀ h1 m1, getFileName { year := 2026, month := 2, day := 20, hour := h1, minute := m1 }
        = "2026-02-20.md")
    ∧ getFileName dt1 = getFileName { year := 2026, month := 2, day := 20, hour := 23, minute := 59 }
    ∧ (∃ body, NetCall.drivePatch "id1" (getFileName dt1) body
        ∈ (saveToDrive envFound "fid" dt1 "note").2)
    ∧ (∀ n fo b, NetCall.drivePost n fo b ∉ (saveToDrive envFound "fid" dt1 "note").2) :=
  drive_filename_per_day_and_update envFound "fid" dt1
    { year := 2026, month := 2, day := 20, hour := 23, minute := 59 } "note"
    { id := "id1", name := "2026-02-20.md" } [] "old" rfl rfl rfl rfl rfl

/-- A concrete recognition batch with one interim and one final result. -/
def evMixed : SpeechEvent :=
  { resultIndex := 0
    results := [{ isFinal := false, transcript := "こん" },
                { isFinal := true, transcript := "こんにちは" }] }

/-- A concrete recognition batch with only interim results. -/
def evInterim : SpeechEvent :=
  { resultIndex := 0
    results := [{ isFinal := false, transcript := "こん" },
                { isFinal := false, transcript := "こんにち" }] }

/-- C7: for every result batch, the handler computes the concatenation of
exactly the finalized alternatives from the batch's starting result index
onward; when that string is non-empty it is appended to the editor once,
preceded by a newline exactly when the editor already has content, and the
save control is enabled — in both variants. -/
theorem onresult_appends_finals_once
    (s : AppState) (rs : RelayState) (ev : SpeechEvent)
    (hne : joinStrings (((ev.results.drop ev.resultIndex).filter fun r => r.isFinal).map
        fun r => r.transcript) ≠ "") :
    finalTranscript ev
      = joinStrings (((ev.results.drop ev.resultIndex).filter fun r => r.isFinal).map
          fun r => r.transcript)
    ∧ (recognitionOnResult s ev).memoText
      = s.memoText ++ (if s.memoText.length > 0 then "\n" else "") ++ finalTranscript ev
    ∧ (recognitionOnResult s ev).saveBtnDisabled = false
    ∧ (relayOnResult rs ev).memoText
      = rs.memoText ++ (if rs.memoText.length > 0 then "\n" else "") ++ finalTranscript ev
    ∧ (relayOnResult rs ev).saveBtnDisabled = false := by
  have hft : finalTranscript ev
      = joinStrings (((ev.results.drop ev.resultIndex).filter fun r => r.isFinal).map
          fun r => r.transcript) := by
    rw [finalTranscript, finalTranscript_foldl, str_empty_append]
  have hft0 : finalTranscript ev ≠ "" := by rw [hft]; exact hne
  refine ⟨hft, ?_, ?_, ?_, ?_⟩ <;>
    simp [recognitionOnResult, relayOnResult, hft0]

/-- C7 witness: a batch holding one interim and one final transcript
appends only the final transcript to a non-empty editor, behind a newline,
and enables the save control in both variants. -/
theorem onresult_appends_finals_once_witness :
    finalTranscript evMixed
      = joinStrings (((evMixed.results.drop evMixed.resultIndex).filter fun r => r.isFinal).map
          fun r => r.transcript)
    ∧ (recognitionOnResult stOnlineAuthed evMixed).memoText
      = stOnlineAuthed.memoText ++ (if stOnlineAuthed.memoText.length > 0 then "\n" else "")
          ++ finalTranscript evMixed
    ∧ (recognitionOnResult stOnlineAuthed evMixed).saveBtnDisabled = false
    ∧ (relayOnResult rsOnline evMixed).memoText
      = rsOnline.memoText ++ (if rsOnline.memoText.length > 0 then "\n" else "")
          ++ finalTranscript evMixed
    ∧ (relayOnResult rsOnline evMixed).saveBtnDisabled = false :=
  onresult_appends_finals_once stOnlineAuthed rsOnline evMixed (by decide)

/-- C8: after an online save whose remote call fails, the save control is
left disabled even though the editor still holds the unsaved text — the
failure branch never re-enables it — and a subsequent editor input event
re-enables it because the trimmed content is still non-empty.  Holds in
both variants. -/
theorem failed_save_leaves_button_disabled_until_input
    (env : DriveEnv) (folderId : String) (now : DateTime) (nowIso : String)
    (s : AppState) (e : JsError) (calls : List NetCall)
    (renv : RelayEnv) (ts rIso : String) (rs : RelayState) (re : JsError)
    (hOnline : s.isOnline = true) (hAuth : s.isAuthenticated = true)
    (hText : jsTrim s.memoText ≠ "")
    (hFail : saveToDrive env folderId now (jsTrim s.memoText) = (Except.error e, calls))
    (hrOnline : rs.isOnline = true) (hrText : jsTrim rs.memoText ≠ "")
    (hrFail : renv.postResp (jsTrim rs.memoText) = Except.error re) :
    (saveBtnOnClick env folderId now nowIso s).saveBtnDisabled = true
    ∧ (saveBtnOnClick env folderId now nowIso s).memoText = s.memoText
    ∧ (memoTextInput (saveBtnOnClick env folderId now nowIso s)).saveBtnDisabled = false
    ∧ (relaySaveBtnOnClick renv ts rIso rs).saveBtnDisabled = true
    ∧ (relaySaveBtnOnClick renv ts rIso rs).memoText = rs.memoText
    ∧ (relayMemoTextInput (relaySaveBtnOnClick renv ts rIso rs)).saveBtnDisabled = false := by
  have hd : (saveBtnOnClick env folderId now nowIso s).memoText = s.memoText := by
    simp [saveBtnOnClick, updateStatus, saveToLocal, hText, hOnline, hAuth, hFail]
  have hr : (relaySaveBtnOnClick renv ts rIso rs).memoText = rs.memoText := by
    simp [relaySaveBtnOnClick, handleSaveFailure, sendMemoToSheet, updateAppStatusMessage,
      saveTextLocally, hrText, hrOnline, hrFail]
  refine ⟨?_, hd, ?_, ?_, hr, ?_⟩
  · simp [saveBtnOnClick, updateStatus, saveToLocal, hText, hOnline, hAuth, hFail]
  · simp [memoTextInput, hd, length_beq_zero_of_ne _ hText]
  · simp [relaySaveBtnOnClick, handleSaveFailure, sendMemoToSheet, updateAppStatusMessage,
      saveTextLocally, hrText, hrOnline, hrFail]
  · simp [relayMemoTextInput, hr, length_beq_zero_of_ne _ hrText]

/-- C8 witness: the concrete failed saves of the C1 witness leave the save
control disabled with the editor text intact, and one input event
re-enables it, in both variants. -/
theorem failed_save_leaves_button_disabled_until_input_witness :
    (saveBtnOnClick envListFail "fid" dt1 "2026-02-20T00:00:00.000Z" stOnlineAuthed).saveBtnDisabled = true
    ∧ (saveBtnOnClick envListFail "fid" dt1 "2026-02-20T00:00:00.000Z" stOnlineAuthed).memoText
        = stOnlineAuthed.memoText
    ∧ (memoTextInput (saveBtnOnClick envListFail "fid" dt1 "2026-02-20T00:00:00.000Z" stOnlineAuthed)).saveBtnDisabled = false
    ∧ (relaySaveBtnOnClick renvFail "2026/02/20 09:05" "2026-02-20T00:00:00.000Z" rsOnline).saveBtnDisabled = true
    ∧ (relaySaveBtnOnClick renvFail "2026/02/20 09:05" "2026-02-20T00:00:00.000Z" rsOnline).memoText
        = rsOnline.memoText
    ∧ (relayMemoTextInput (relaySaveBtnOnClick renvFail "2026/02/20 09:05" "2026-02-20T00:00:00.000Z" rsOnline)).saveBtnDisabled = false :=
  failed_save_leaves_button_disabled_until_input envListFail "fid" dt1
    "2026-02-20T00:00:00.000Z" stOnlineAuthed errBoom [NetCall.driveList "2026-02-20.md" "fid"]
    renvFail "2026/02/20 09:05" "2026-02-20T00:00:00.000Z" rsOnline errBoom
    rfl rfl (by decide) rfl rfl (by decide) rfl

/-- C9: the single combined body the drive-variant sync submits to the
adapter is the queued notes' texts in enqueue order, each wrapped as a
newline, the marker line `(Synced from offline)`, a newline, the text and a
newline — nothing dropped or duplicated — and `syncPendingData` issues
exactly the adapter's calls for that combined body. -/
theorem sync_combined_body_in_order
    (env : DriveEnv) (folderId : String) (now : DateTime) (s : AppState)
    (hAuth : s.isAuthenticated = true) (hOnline : s.isOnline = true)
    (hNe : getPending s.storage ≠ []) :
    combinedOffline (getPending s.storage)
      = joinStrings ((getPending s.storage).map
          fun m => "\n(Synced from offline)\n" ++ m.text ++ "\n")
    ∧ (syncPendingData env folderId now s).netCalls
      = s.netCalls ++ (saveToDrive env folderId now (combinedOffline (getPending s.storage))).2 := by
  have hlen : ¬ (getPending s.storage).length = 0 := by
    simpa [List.length_eq_zero] using hNe
  constructor
  · rw [combinedOffline, combinedOffline_foldl, str_empty_append]
  · rcases hsd : saveToDrive env folderId now (combinedOffline (getPending s.storage)) with ⟨r, calls⟩
    cases r <;> simp [syncPendingData, hAuth, hOnline, hlen, hsd, updateStatus]

/-- C9 witness: with one queued memo the combined body is its wrapped text
and the sync's network calls are exactly the adapter calls for it. -/
theorem sync_combined_body_in_order_witness :
    combinedOffline (getPending stQueued.storage)
      = joinStrings ((getPending stQueued.storage).map
          fun m => "\n(Synced from offline)\n" ++ m.text ++ "\n")
    ∧ (syncPendingData envAllOk "fid" dt1 stQueued).netCalls
      = stQueued.netCalls
          ++ (saveToDrive envAllOk "fid" dt1 (combinedOffline (getPending stQueued.storage))).2 :=
  sync_combined_body_in_order envAllOk "fid" dt1 stQueued rfl rfl (by decide)

/-- C10: a result batch in which no result from the starting index onward
is finalized leaves the editor text and the save control's disabled state
unchanged, in both variants. -/
theorem onresult_all_interim_is_noop
    (s : AppState) (rs : RelayState) (ev : SpeechEvent)
    (h : ∀ r ∈ ev.results.drop ev.resultIndex, r.isFinal = false) :
    (recognitionOnResult s ev).memoText = s.memoText
    ∧ (recognitionOnResult s ev).saveBtnDisabled = s.saveBtnDisabled
    ∧ (relayOnResult rs ev).memoText = rs.memoText
    ∧ (relayOnResult rs ev).saveBtnDisabled = rs.saveBtnDisabled := by
  have hft : finalTranscript ev = "" :=
    finalTranscript_foldl_no_final (ev.results.drop ev.resultIndex) "" h
  refine ⟨?_, ?_, ?_, ?_⟩ <;> simp [recognitionOnResult, relayOnResult, hft]

/-- C10 witness: a batch of two interim results changes neither the editor
nor the save control in either variant. -/
theorem onresult_all_interim_is_noop_witness :
    (recognitionOnResult stOnlineAuthed evInterim).memoText = stOnlineAuthed.memoText
    ∧ (recognitionOnResult stOnlineAuthed evInterim).saveBtnDisabled = stOnlineAuthed.saveBtnDisabled
    ∧ (relayOnResult rsOnline evInterim).memoText = rsOnline.memoText
    ∧ (relayOnResult rsOnline evInterim).saveBtnDisabled = rsOnline.saveBtnDisabled :=
  onresult_all_interim_is_noop stOnlineAuthed rsOnline evInterim (by decide)
